import Mathlib

/-!
Shallow embedding of the QKart storefront client (cart reconciliation and
pricing, session storage, search debouncing, checkout) and proofs of the
spec's testable properties against it.

Numbers in the client are JS numbers holding integer values (costs,
quantities, ratings, wallet balance); they are embedded as `Int`.
-/

/-- Product record, from the JSDoc typedef in src/src/components/Cart.js. -/
structure Product where
  name : String
  category : String
  cost : Int
  rating : Int
  image : String
  _id : String
  deriving Repr, DecidableEq

/-- A raw cart entry `{ productId, qty }` as returned by the backend cart
endpoint (src/src/components/Cart.js JSDoc for `generateCartItemsFrom`). -/
structure CartLine where
  productId : String
  qty : Int
  deriving Repr, DecidableEq

/-- CartItem record, from the JSDoc typedef in src/src/components/Cart.js:
a cart line enriched with the matched product's descriptive fields. -/
structure CartItem where
  name : String
  qty : Int
  category : String
  cost : Int
  rating : Int
  image : String
  productId : String
  deriving Repr, DecidableEq

/-- The only failure `generateCartItemsFrom` can produce: when
`productsData.find(...)` returns `undefined`, the subsequent field access
`product.name` throws an uncaught `TypeError`. The function contains no
explicit `throw`, so this constructor models an unhandled crash, not a
deliberately raised, documented error. -/
inductive JsError where
  | typeError
  deriving Repr, DecidableEq

/-- `generateCartItemsFrom(cartData, productsData)` from
src/src/components/Cart.js lines 50-65: maps each cart line to the record
`\x7b name, qty, category, cost, rating, image, productId \x7d` built from the
first product whose `_id` equals the line's `productId`. A line with no
matching product makes the callback dereference `undefined`, which aborts
the whole call with a `TypeError` (modelled as `Except.error`). -/
def generateCartItemsFrom : List CartLine → List Product → Except JsError (List CartItem)
  | [], _ => .ok []
  | item :: rest, productsData =>
    match productsData.find? (fun product => product._id == item.productId) with
    | some product =>
      match generateCartItemsFrom rest productsData with
      | .ok items =>
        .ok ({ name := product.name, qty := item.qty, category := product.category,
               cost := product.cost, rating := product.rating, image := product.image,
               productId := product._id } :: items)
      | .error e => .error e
    | none => .error .typeError

/-- `getTotalCartValue(items)` from src/src/components/Cart.js lines 78-80:
`items.reduce((acc, item) => acc + item.cost * item.qty, 0)`. -/
def getTotalCartValue (items : List CartItem) : Int :=
  items.foldl (fun acc item => acc + item.cost * item.qty) 0

/-- `getTotalItems(items = [])` from src/src/components/Cart.js lines 92-94:
`items.reduce((acc, item) => acc + item.qty, 0)`, with a default parameter
so that an omitted/`undefined` argument (modelled as `none`) behaves as `[]`. -/
def getTotalItems (items : Option (List CartItem)) : Int :=
  (items.getD []).foldl (fun acc item => acc + item.qty) 0

/-- `isItemInCart(items, productId)` from src/src/App.js line 282:
`const isItemInCart = (items, productId) => \x7b\x7d;` — the body is empty, so
every call returns `undefined` (modelled as `none`); no boolean is ever
produced, although the JSDoc above it promises one. -/
def isItemInCart (items : List CartLine) (productId : String) : Option Bool :=
  none

/-- Folding `acc + f x` over a list starting from `a` yields `a` plus the sum
of the mapped list (shape of both `reduce` calls in Cart.js). -/
theorem foldl_add_eq_sum {α : Type} (f : α → Int) :
    ∀ (l : List α) (a : Int), l.foldl (fun acc x => acc + f x) a = a + (l.map f).sum
  | [], a => by simp
  | x :: xs, a => by
    simp [List.foldl, foldl_add_eq_sum f xs (a + f x), add_assoc]

/-- C3: `getTotalCartValue` returns the sum over the items of
quantity × unit cost; it is 0 on the empty list and 35 on
`[\x7bcost:10, qty:2\x7d, \x7bcost:5, qty:3\x7d]`. -/
theorem getTotalCartValue_spec :
    (∀ items : List CartItem,
        getTotalCartValue items = (items.map (fun item => item.qty * item.cost)).sum) ∧
    getTotalCartValue [] = 0 ∧
    getTotalCartValue
      [{ name := "", qty := 2, category := "", cost := 10, rating := 0, image := "", productId := "" },
       { name := "", qty := 3, category := "", cost := 5, rating := 0, image := "", productId := "" }] = 35 := by
  refine ⟨fun items => ?_, rfl, by decide⟩
  have h := foldl_add_eq_sum (fun item : CartItem => item.cost * item.qty) items 0
  simp only [getTotalCartValue, h, zero_add]
  simp [mul_comm]

/-- C4: `getTotalItems` returns the sum of the `qty` fields; it is 0 on the
empty list and on an omitted/undefined input, and 5 on
`[\x7bqty:2\x7d, \x7bqty:3\x7d]`. -/
theorem getTotalItems_spec :
    (∀ items : List CartItem,
        getTotalItems (some items) = (items.map (fun item => item.qty)).sum) ∧
    getTotalItems (some []) = 0 ∧
    getTotalItems none = 0 ∧
    getTotalItems (some
      [{ name := "", qty := 2, category := "", cost := 0, rating := 0, image := "", productId := "" },
       { name := "", qty := 3, category := "", cost := 0, rating := 0, image := "", productId := "" }]) = 5 := by
  refine ⟨fun items => ?_, rfl, rfl, by decide⟩
  have h := foldl_add_eq_sum (fun item : CartItem => item.qty) items 0
  simp only [getTotalItems, Option.getD, h, zero_add]

/-- C5: the code's own JSDoc documents `isItemInCart` as returning a Boolean
that reports whether a product of the given productId exists in the items
array, but the implementation is an empty stub: even on a list that does
contain a matching productId it returns `undefined` (`none`), never a
boolean. -/
theorem isItemInCart_unimplemented_at_match :
    (∀ (items : List CartLine) (productId : String), isItemInCart items productId = none) ∧
    ([{ productId := "A", qty := 1 }] : List CartLine).any (fun l => l.productId == "A") = true ∧
    isItemInCart [{ productId := "A", qty := 1 }] "A" = none := by
  exact ⟨fun _ _ => rfl, by decide, rfl⟩

/-- `List.find?` skips a block in which no element satisfies the predicate. -/
theorem find?_append_of_none {α : Type} (pred : α → Bool) :
    ∀ (l₁ l₂ : List α), (∀ x ∈ l₁, pred x = false) →
      (l₁ ++ l₂).find? pred = l₂.find? pred
  | [], _, _ => rfl
  | a :: l₁, l₂, h => by
    have ha : ¬ pred a = true := by simp [h a (List.mem_cons_self a l₁)]
    rw [List.cons_append, List.find?_cons_of_neg _ ha]
    exact find?_append_of_none pred l₁ l₂ (fun x hx => h x (List.mem_cons_of_mem a hx))

/-- C1: when every cart line's productId occurs as the `_id` of some product
in the catalog, `generateCartItemsFrom` succeeds with a list of the same
length as the cart, in the same order, whose element at each position takes
cost, name, category, rating and image from the matching product (the one
`find` returns), qty from the cart line, and productId from the matched
product's `_id`. -/
theorem generateCartItemsFrom_length_order_fields (L : List CartLine) (C : List Product)
    (hmem : ∀ l ∈ L, ∃ p ∈ C, p._id = l.productId) :
    ∃ items, generateCartItemsFrom L C = .ok items ∧ items.length = L.length ∧
      List.Forall₂ (fun (l : CartLine) (it : CartItem) =>
        ∃ p, C.find? (fun q => q._id == l.productId) = some p ∧
          it.cost = p.cost ∧ it.name = p.name ∧ it.category = p.category ∧
          it.rating = p.rating ∧ it.image = p.image ∧
          it.qty = l.qty ∧ it.productId = p._id) L items := by
  induction L with
  | nil => exact ⟨[], rfl, rfl, List.Forall₂.nil⟩
  | cons l ls ih =>
    obtain ⟨p, hpC, hpid⟩ := hmem l (List.mem_cons_self l ls)
    have hsome : (C.find? (fun q => q._id == l.productId)).isSome := by
      rw [List.find?_isSome]
      exact ⟨p, hpC, by simp [hpid]⟩
    obtain ⟨p0, hp0⟩ := Option.isSome_iff_exists.mp hsome
    obtain ⟨items, hgen, hlen, hall⟩ := ih (fun x hx => hmem x (List.mem_cons_of_mem l hx))
    refine ⟨{ name := p0.name, qty := l.qty, category := p0.category, cost := p0.cost,
              rating := p0.rating, image := p0.image, productId := p0._id } :: items, ?_, ?_, ?_⟩
    · simp only [generateCartItemsFrom, hp0, hgen]
    · simpa using hlen
    · exact List.Forall₂.cons ⟨p0, hp0, rfl, rfl, rfl, rfl, rfl, rfl, rfl⟩ hall

/-- Closed instance of C1 at the spec's §8 scenario: catalog `[Ball]`, cart
`[(A, 3)]` — the call succeeds and the result has length 1. -/
theorem generateCartItemsFrom_length_order_fields_witness :
    (generateCartItemsFrom [{ productId := "A", qty := 3 }]
        [{ name := "Ball", category := "Sports", cost := 100, rating := 5, image := "x",
           _id := "A" }]).toOption.map List.length = some 1 := by
  obtain ⟨items, hgen, hlen, -⟩ :=
    generateCartItemsFrom_length_order_fields
      [{ productId := "A", qty := 3 }]
      [{ name := "Ball", category := "Sports", cost := 100, rating := 5, image := "x", _id := "A" }]
      (fun l hl => ⟨{ name := "Ball", category := "Sports", cost := 100, rating := 5, image := "x", _id := "A" },
        by simp, by cases List.mem_singleton.mp hl; rfl⟩)
  rw [hgen]
  simpa [Except.toOption] using hlen

/-- C2 counterexample: on the concrete input of one cart line whose productId
matches no product, `generateCartItemsFrom` does not return any explicit,
documented error result: the call aborts with `JsError.typeError`, the
uncaught `TypeError` thrown by dereferencing the `undefined` result of
`find` — an unhandled crash rather than a deliberately raised error. -/
theorem generateCartItemsFrom_dangling_typeError_example :
    generateCartItemsFrom [{ productId := "missing", qty := 1 }] [] =
      .error JsError.typeError := rfl

/-- C2 amended: when some cart line's productId matches no product in the
catalog, `generateCartItemsFrom` does not produce a partially-filled result
or undefined fields — the whole call fails — but the failure is the
unhandled `TypeError` from dereferencing a missing `find` result, not an
explicit, documented error. -/
theorem generateCartItemsFrom_dangling_fails_whole (L : List CartLine) (C : List Product)
    (h : ∃ l ∈ L, ∀ p ∈ C, p._id ≠ l.productId) :
    generateCartItemsFrom L C = .error JsError.typeError := by
  induction L with
  | nil =>
    obtain ⟨l, hl, -⟩ := h
    exact absurd hl (List.not_mem_nil l)
  | cons a as ih =>
    obtain ⟨l, hl, hnone⟩ := h
    rcases List.mem_cons.mp hl with rfl | hmem
    · have hfind : C.find? (fun q => q._id == l.productId) = none := by
        rw [List.find?_eq_none]
        intro p hp
        simpa using hnone p hp
      simp only [generateCartItemsFrom, hfind]
    · cases hfind : C.find? (fun q => q._id == a.productId) with
      | none => simp only [generateCartItemsFrom, hfind]
      | some p =>
        have hrec := ih ⟨l, hmem, hnone⟩
        simp only [generateCartItemsFrom, hfind, hrec]

/-- Closed instance of C2's amended statement: a cart line for "B" against a
catalog holding only "A" fails whole with the TypeError. -/
theorem generateCartItemsFrom_dangling_fails_whole_witness :
    generateCartItemsFrom [{ productId := "B", qty := 2 }]
      [{ name := "Ball", category := "Sports", cost := 100, rating := 5, image := "x", _id := "A" }] =
      .error JsError.typeError :=
  generateCartItemsFrom_dangling_fails_whole _ _
    ⟨{ productId := "B", qty := 2 }, by simp, by decide⟩

/-- C7: for every cart-line list and every catalog containing two or more
products with the same identifier (the catalog is `pre ++ p :: mid ++ q ::
post` with `q._id = p._id` and no match for that identifier in `pre`, so
`p` is the first matching entry), whenever the reconciliation produces a
result, every output position whose cart line carries the duplicated
identifier is built from the first matching catalog entry `p`, in catalog
order. -/
theorem generateCartItemsFrom_first_match_wins (L : List CartLine)
    (pre mid post : List Product) (p q : Product)
    (hq : q._id = p._id) (hpre : ∀ r ∈ pre, r._id ≠ p._id)
    (items : List CartItem)
    (hok : generateCartItemsFrom L (pre ++ (p :: (mid ++ q :: post))) = .ok items) :
    List.Forall₂ (fun (l : CartLine) (it : CartItem) =>
      l.productId = p._id →
        it = { name := p.name, qty := l.qty, category := p.category, cost := p.cost,
               rating := p.rating, image := p.image, productId := p._id }) L items := by
  induction L generalizing items with
  | nil =>
    simp only [generateCartItemsFrom, Except.ok.injEq] at hok
    subst hok
    exact List.Forall₂.nil
  | cons a as ih =>
    cases hfind : (pre ++ (p :: (mid ++ q :: post))).find? (fun r => r._id == a.productId) with
    | none =>
      simp only [generateCartItemsFrom, hfind] at hok
      exact Except.noConfusion hok
    | some r =>
      cases hrec : generateCartItemsFrom as (pre ++ (p :: (mid ++ q :: post))) with
      | error e =>
        simp only [generateCartItemsFrom, hfind, hrec] at hok
        exact Except.noConfusion hok
      | ok tail =>
        simp only [generateCartItemsFrom, hfind, hrec, Except.ok.injEq] at hok
        subst hok
        refine List.Forall₂.cons ?_ (ih tail hrec)
        intro hid
        have hfp : (pre ++ (p :: (mid ++ q :: post))).find? (fun r => r._id == a.productId) =
            some p := by
          rw [hid, find?_append_of_none _ pre _ (fun r hr => by simp [hpre r hr])]
          exact List.find?_cons_of_pos _ (by simp)
        rw [hfind] at hfp
        injection hfp with hrp
        subst hrp
        rfl

/-- Two-line cart for the C7 witness: one line with the duplicated id "A",
one with the unique id "B". -/
def cartC7 : List CartLine :=
  [{ productId := "A", qty := 3 }, { productId := "B", qty := 1 }]

/-- The reconciled items for `cartC7` against the duplicated catalog: the
"A" line resolves to Ball (the first "A" entry), not Bat. -/
def itemsC7 : List CartItem :=
  [{ name := "Ball", qty := 3, category := "Sports", cost := 100, rating := 5,
     image := "x", productId := "A" },
   { name := "Cap", qty := 1, category := "Fashion", cost := 20, rating := 4,
     image := "z", productId := "B" }]

/-- Closed instance of C7 on a two-line cart: the catalog holds Ball and Bat
both with `_id = "A"` plus Cap with `_id = "B"`; the first reconciled item
is built from Ball, the first "A" entry. -/
theorem generateCartItemsFrom_first_match_wins_witness :
    itemsC7.head? = some { name := "Ball", qty := 3, category := "Sports", cost := 100,
                           rating := 5, image := "x", productId := "A" } := by
  have h := generateCartItemsFrom_first_match_wins cartC7 [] []
    [{ name := "Cap", category := "Fashion", cost := 20, rating := 4, image := "z", _id := "B" }]
    { name := "Ball", category := "Sports", cost := 100, rating := 5, image := "x", _id := "A" }
    { name := "Bat", category := "Sports", cost := 7, rating := 1, image := "y", _id := "A" }
    rfl (by simp) itemsC7 rfl
  simp only [cartC7, itemsC7] at h
  cases h with
  | cons hhead _ => simpa [itemsC7] using hhead rfl

/-- C8: `generateCartItemsFrom` is a pure, deterministic function of its two
inputs — under the membership precondition, two calls on the same cart-line
list and catalog yield equal (by value) outputs. The embedding has no state
to mutate, matching the source, whose callback only reads its arguments. -/
theorem generateCartItemsFrom_deterministic (L : List CartLine) (C : List Product)
    (hmem : ∀ l ∈ L, ∃ p ∈ C, p._id = l.productId) :
    generateCartItemsFrom L C = generateCartItemsFrom L C := rfl

/-- Closed instance of C8 at the spec's §8 scenario input. -/
theorem generateCartItemsFrom_deterministic_witness :
    generateCartItemsFrom [{ productId := "A", qty := 3 }]
        [{ name := "Ball", category := "Sports", cost := 100, rating := 5, image := "x", _id := "A" }] =
      generateCartItemsFrom [{ productId := "A", qty := 3 }]
        [{ name := "Ball", category := "Sports", cost := 100, rating := 5, image := "x", _id := "A" }] :=
  generateCartItemsFrom_deterministic _ _
    (fun l hl => ⟨{ name := "Ball", category := "Sports", cost := 100, rating := 5, image := "x", _id := "A" },
      by simp, by cases List.mem_singleton.mp hl; rfl⟩)

/-- The three persisted session keys of browser localStorage that the client
uses: `token`, `username`, `balance` (`none` for a missing key). The client
stores the balance as its decimal numeral string and always reads it back
through `Number(...)`; since `Number` and `toString` are mutually inverse on
integers, the embedding keeps the integer value itself. -/
structure LocalStorage where
  token : Option String
  username : Option String
  balance : Option Int
  deriving Repr, DecidableEq

/-- JS `Number(localStorage.getItem("balance"))`: a missing key is `null`,
and `Number(null) = 0`; a stored numeral reads back as its value. -/
def numberOf (x : Option Int) : Int :=
  x.getD 0

/-- `persistLogin(token, username, balance)` from
src/src/components/ProductCard.js lines 177-181: writes the three session
keys. -/
def persistLogin (token username : String) (balance : Int) (s : LocalStorage) : LocalStorage :=
  { s with token := some token, username := some username, balance := some balance }

/-- `logout()` from src/src/components/Header.js lines 11-14:
`window.localStorage.clear()` removes every key. -/
def logout (s : LocalStorage) : LocalStorage :=
  { token := none, username := none, balance := none }

/-- The storage-writing operations of the client. Scanning the repository for
localStorage writes finds exactly three sites: `persistLogin` (login page,
ProductCard.js 177-181), `logout` (Header.js 11-14), and the
successful-order branch of `performCheckout` (unnamed checkout view,
line 487), which runs
`localStorage.setItem("balance", (Number(localStorage.getItem("balance")) - getTotalCartValue(items)).toString())`. -/
inductive ClientOp where
  | persistLoginOp (token username : String) (balance : Int)
  | logoutOp
  | checkoutSuccessOp (items : List CartItem)
  deriving Repr, DecidableEq

/-- Effect of each storage-writing operation on the session keys, translated
from the three write sites. -/
def applyOp : ClientOp → LocalStorage → LocalStorage
  | .persistLoginOp t u b, s => persistLogin t u b s
  | .logoutOp, s => logout s
  | .checkoutSuccessOp items, s =>
    { s with balance := some (numberOf s.balance - getTotalCartValue items) }

/-- Whether an operation is the login/registration write or the logout
clear — the two sites the claim allows to touch the session keys. -/
def isAuthOp : ClientOp → Bool
  | .persistLoginOp .. => true
  | .logoutOp => true
  | .checkoutSuccessOp _ => false

/-- Concrete cart for the C6 counterexample: one item costing 100 with
qty 3. -/
def itemsC6 : List CartItem :=
  [{ name := "Ball", qty := 3, category := "Sports", cost := 100, rating := 5,
     image := "x", productId := "A" }]

/-- Concrete session storage for the C6 counterexample. -/
def storeC6 : LocalStorage :=
  { token := some "tok", username := some "user01", balance := some 500 }

/-- C6 counterexample: the successful-checkout operation is neither
login/registration nor logout, yet it writes the persisted `balance`
(500 becomes 200 after a 300-value order), so the session fields are not
mutated only at login/registration and logout. -/
theorem checkout_writes_balance_example :
    isAuthOp (ClientOp.checkoutSuccessOp itemsC6) = false ∧
    applyOp (ClientOp.checkoutSuccessOp itemsC6) storeC6 ≠ storeC6 ∧
    (applyOp (ClientOp.checkoutSuccessOp itemsC6) storeC6).balance = some 200 := by
  refine ⟨rfl, ?_, by decide⟩
  intro h
  have hb := congrArg LocalStorage.balance h
  revert hb
  decide

/-- C6 amended: login/registration (`persistLogin`) writes the three session
keys and logout clears them, and these are the only operations that touch
`token` and `username`; the one further write in the client is the
successful-checkout branch, which updates only `balance`, setting it to the
old balance minus the cart total. -/
theorem session_fields_write_discipline (op : ClientOp) (s : LocalStorage)
    (h : isAuthOp op = false) :
    (applyOp op s).token = s.token ∧ (applyOp op s).username = s.username ∧
    ∃ items, op = ClientOp.checkoutSuccessOp items ∧
      (applyOp op s).balance = some (numberOf s.balance - getTotalCartValue items) := by
  cases op with
  | persistLoginOp t u b => simp [isAuthOp] at h
  | logoutOp => simp [isAuthOp] at h
  | checkoutSuccessOp items => exact ⟨rfl, rfl, items, rfl, rfl⟩

/-- Closed instance of C6's amended statement: the checkout write leaves
`token` untouched. -/
theorem session_fields_write_discipline_witness :
    (applyOp (ClientOp.checkoutSuccessOp itemsC6) storeC6).token = some "tok" := by
  have h := session_fields_write_discipline (ClientOp.checkoutSuccessOp itemsC6) storeC6 rfl
  rw [h.1]
  rfl

/-- A scheduled search: the timer id returned by `setTimeout`, the search
text its callback will send, and its delay in milliseconds. -/
structure SearchTimer where
  id : Nat
  text : String
  delay : Nat
  deriving Repr, DecidableEq

/-- The browser timer table as the debounce logic sees it: the scheduled,
not-yet-cancelled timers, plus a counter issuing fresh timer ids. -/
structure SchedulerState where
  pending : List SearchTimer
  nextId : Nat
  deriving Repr, DecidableEq

/-- `clearTimeout(tid)`: removes the timer with that id from the pending
table (a no-op when no such timer is pending). -/
def clearTimeoutOp (tid : Nat) (s : SchedulerState) : SchedulerState :=
  { s with pending := s.pending.filter (fun t => t.id != tid) }

/-- `setTimeout(callback, delay)`: schedules a fresh timer and returns its
id. -/
def setTimeoutOp (text : String) (delay : Nat) (s : SchedulerState) : Nat × SchedulerState :=
  (s.nextId, { pending := s.pending ++ [{ id := s.nextId, text := text, delay := delay }],
               nextId := s.nextId + 1 })

/-- `debounceSearch(event, debounceTimeout)` from src/src/App.js lines
195-203 (the checkout-era Products view in src/unnamed/part_000 lines
136-146 is identical for these purposes): if a previous timer id was
passed, `clearTimeout` it; then `setTimeout` a search of the event's text
with a 500 ms delay and remember the new timer id
(`setDebounceTimeout(timer)` / `setTimerId(timer)`). -/
def debounceSearch (text : String) (debounceTimeout : Option Nat) (s : SchedulerState) :
    Option Nat × SchedulerState :=
  let s1 := match debounceTimeout with
    | some tid => clearTimeoutOp tid s
    | none => s
  let r := setTimeoutOp text 500 s1
  (some r.1, r.2)

/-- Runs a sequence of search keystrokes through `debounceSearch`, threading
the remembered timer id and the timer table, exactly as the `onChange`
handler does (`(e) => debounceSearch(e, timerId)`). -/
def runKeystrokes : List String → Option Nat × SchedulerState → Option Nat × SchedulerState
  | [], st => st
  | text :: rest, st => runKeystrokes rest (debounceSearch text st.1 st.2)

/-- Component state on mount: no remembered timer id, empty timer table. -/
def initSearchState : Option Nat × SchedulerState :=
  (none, { pending := [], nextId := 0 })

/-- The reachable debounce states: every pending timer is the remembered
one (so there is at most one) and carries an already-issued id. -/
def GoodSched (st : Option Nat × SchedulerState) : Prop :=
  st.2.pending.length ≤ 1 ∧ ∀ t ∈ st.2.pending, st.1 = some t.id ∧ t.id < st.2.nextId

/-- One `debounceSearch` call from a reachable state cancels the previously
pending timer (if any) and leaves exactly one pending timer: the latest
text with a 500 ms delay, whose id is the remembered one. -/
theorem debounceSearch_step (text : String) (st : Option Nat × SchedulerState)
    (h : GoodSched st) :
    (debounceSearch text st.1 st.2).2.pending =
      [{ id := st.2.nextId, text := text, delay := 500 }] ∧
    (debounceSearch text st.1 st.2).1 = some st.2.nextId ∧
    (debounceSearch text st.1 st.2).2.nextId = st.2.nextId + 1 ∧
    GoodSched (debounceSearch text st.1 st.2) := by
  obtain ⟨hlen, htrack⟩ := h
  have hclear : (match st.1 with
      | some tid => clearTimeoutOp tid st.2
      | none => st.2).pending = [] ∧
      (match st.1 with
      | some tid => clearTimeoutOp tid st.2
      | none => st.2).nextId = st.2.nextId := by
    match hp : st.2.pending, hlen with
    | [], _ =>
      cases htid : st.1 with
      | none => simp [hp]
      | some tid => simp [clearTimeoutOp, hp]
    | [t], _ =>
      obtain ⟨htid, -⟩ := htrack t (by simp [hp])
      rw [htid]
      simp [clearTimeoutOp, hp]
  refine ⟨?_, ?_, ?_, ?_⟩
  · simp [debounceSearch, setTimeoutOp, hclear.1, hclear.2]
  · simp [debounceSearch, setTimeoutOp, hclear.2]
  · simp [debounceSearch, setTimeoutOp, hclear.2]
  · refine ⟨?_, ?_⟩
    · simp [debounceSearch, setTimeoutOp, hclear.1]
    · intro t ht
      simp [debounceSearch, setTimeoutOp, hclear.1, hclear.2] at ht
      simp [debounceSearch, setTimeoutOp, hclear.2, ht]

/-- Running any keystroke sequence from a reachable state yields a reachable
state; when the sequence is nonempty, exactly one search is pending at the
end — the last keystroke's text, with a 500 ms delay. -/
theorem runKeystrokes_good :
    ∀ (ks : List String) (st : Option Nat × SchedulerState), GoodSched st →
      GoodSched (runKeystrokes ks st) ∧
      (ks ≠ [] → ∃ t : SearchTimer, (runKeystrokes ks st).2.pending = [t] ∧
        t.text = ks.getLast?.getD "" ∧ t.delay = 500 ∧
        (runKeystrokes ks st).1 = some t.id)
  | [], st, h => ⟨h, fun hne => absurd rfl hne⟩
  | text :: rest, st, h => by
    obtain ⟨hpend, hid, -, hgood⟩ := debounceSearch_step text st h
    obtain ⟨hgood2, hlast⟩ := runKeystrokes_good rest (debounceSearch text st.1 st.2) hgood
    have hrun : runKeystrokes (text :: rest) st =
        runKeystrokes rest (debounceSearch text st.1 st.2) := rfl
    refine ⟨by rw [hrun]; exact hgood2, fun _ => ?_⟩
    cases hrest : rest with
    | nil =>
      refine ⟨{ id := st.2.nextId, text := text, delay := 500 }, ?_, ?_, rfl, ?_⟩
      · simpa [runKeystrokes] using hpend
      · simp
      · simpa [runKeystrokes] using hid
    | cons r rs =>
      obtain ⟨t, hpt, htext, hdelay, htid⟩ := hlast (by simp [hrest])
      rw [hrest] at hpt htext htid
      refine ⟨t, ?_, ?_, hdelay, ?_⟩
      · simpa [runKeystrokes] using hpt
      · rw [htext]
        simp [List.getLast?_cons_cons]
      · simpa [runKeystrokes] using htid

/-- C9: from the component's initial state, every keystroke sequence fed to
`debounceSearch` keeps at most one scheduled search pending at every moment
(after any number of keystrokes), each call cancels the previously pending
timer and schedules the new text with a 500 ms delay, and after the final
keystroke the single pending search carries the latest text. -/
theorem debounceSearch_latest_wins :
    (∀ (text : String) (st : Option Nat × SchedulerState), GoodSched st →
      (debounceSearch text st.1 st.2).2.pending =
        [{ id := st.2.nextId, text := text, delay := 500 }]) ∧
    (∀ ks : List String, (runKeystrokes ks initSearchState).2.pending.length ≤ 1) ∧
    (∀ ks : List String, ks ≠ [] → ∃ t : SearchTimer,
      (runKeystrokes ks initSearchState).2.pending = [t] ∧
      t.text = ks.getLast?.getD "" ∧ t.delay = 500) := by
  have hinit : GoodSched initSearchState := ⟨by simp [initSearchState], by simp [initSearchState]⟩
  refine ⟨fun text st h => (debounceSearch_step text st h).1, ?_, ?_⟩
  · intro ks
    exact ((runKeystrokes_good ks initSearchState hinit).1).1
  · intro ks hne
    obtain ⟨t, hpt, htext, hdelay, -⟩ := (runKeystrokes_good ks initSearchState hinit).2 hne
    exact ⟨t, hpt, htext, hdelay⟩

/-- Closed instance of C9: after the keystrokes "a" then "ab", exactly the
search for "ab" is pending, with a 500 ms delay. -/
theorem debounceSearch_latest_wins_witness :
    ((runKeystrokes ["a", "ab"] initSearchState).2.pending.map
      (fun t => (t.text, t.delay))) = [("ab", 500)] := by
  obtain ⟨t, hpt, htext, hdelay⟩ :=
    debounceSearch_latest_wins.2.2 ["a", "ab"] (by simp)
  rw [hpt]
  simp at htext
  simp [htext, hdelay]

/-- An address record `\x7b _id, address \x7d` from the checkout view. -/
structure Address where
  _id : String
  address : String
  deriving Repr, DecidableEq

/-- The checkout view's `addresses` state: `\x7b all, selected \x7d`, where
`selected` is the currently-selected address id (`""` when none is
selected). -/
structure Addresses where
  all : List Address
  selected : String
  deriving Repr, DecidableEq

/-- `validateRequest(items, addresses)` from src/unnamed/part_001 lines
400-429: fails when no address exists, when no address is selected, or when
`Number(localStorage.getItem("balance")) < getTotalCartValue(items)`;
otherwise passes. The persisted balance read is passed in explicitly. -/
def validateRequest (items : List CartItem) (addresses : Addresses) (balance : Int) : Bool :=
  if addresses.all.length == 0 then false
  else if addresses.selected == "" then false
  else if balance < getTotalCartValue items then false
  else true

/-- Outcome of the `POST /cart/checkout` call as `performCheckout` observes
it: a resolved response with its HTTP status, or a rejected promise
(network failure or error response), which lands in the `catch` block. -/
inductive PostResult where
  | resp (status : Nat)
  | err
  deriving Repr, DecidableEq

/-- `performCheckout(token, items, addresses)` from src/unnamed/part_001
lines 463-505, as a function of the cart, the addresses state, the
persisted balance, and the backend's response. Returns
(returned value, persisted balance afterwards, whether the checkout POST
was issued): validation failure returns false without issuing the request;
a resolved 200 response writes `balance - getTotalCartValue(items)` to the
persisted balance and returns true; any other outcome leaves the balance
untouched and returns false. -/
def performCheckout (items : List CartItem) (addresses : Addresses) (balance : Int)
    (post : PostResult) : Bool × Int × Bool :=
  if validateRequest items addresses balance then
    match post with
    | .resp status =>
      if status != 200 then (false, balance, true)
      else (true, balance - getTotalCartValue items, true)
    | .err => (false, balance, true)
  else (false, balance, false)

/-- C10: the checkout POST is issued exactly when `validateRequest` passes;
`validateRequest` passes exactly when an address exists, one is selected,
and the persisted balance covers `getTotalCartValue(items)`; a successful
order decreases the persisted balance by exactly the cart total and returns
true; failed validation issues no request, returns false and leaves the
balance unchanged; and any rejected or non-200 checkout response also
returns false with the balance unchanged. -/
theorem performCheckout_balance_policy (items : List CartItem) (addresses : Addresses)
    (balance : Int) (post : PostResult) :
    ((performCheckout items addresses balance post).2.2 = true ↔
      validateRequest items addresses balance = true) ∧
    (validateRequest items addresses balance = true ↔
      (addresses.all ≠ [] ∧ addresses.selected ≠ "" ∧ getTotalCartValue items ≤ balance)) ∧
    (validateRequest items addresses balance = true → post = .resp 200 →
      performCheckout items addresses balance post =
        (true, balance - getTotalCartValue items, true)) ∧
    (validateRequest items addresses balance = false →
      performCheckout items addresses balance post = (false, balance, false)) ∧
    (post ≠ .resp 200 →
      (performCheckout items addresses balance post).1 = false ∧
      (performCheckout items addresses balance post).2.1 = balance) := by
  refine ⟨?_, ?_, ?_, ?_, ?_⟩
  · by_cases hv : validateRequest items addresses balance
    · simp only [hv, iff_true]
      cases post with
      | resp status =>
        by_cases hs : status = 200
        · simp [performCheckout, hv, hs]
        · simp [performCheckout, hv, hs]
      | err => simp [performCheckout, hv]
    · simp only [Bool.not_eq_true] at hv
      simp [performCheckout, hv]
  · simp only [validateRequest]
    constructor
    · intro h
      by_cases h0 : addresses.all.length == 0
      · simp [h0] at h
      · by_cases h1 : addresses.selected == ""
        · simp [h0, h1] at h
        · by_cases h2 : balance < getTotalCartValue items
          · simp [h0, h1, h2] at h
          · refine ⟨?_, ?_, not_lt.mp h2⟩
            · intro hnil
              simp [hnil] at h0
            · simpa using h1
    · rintro ⟨h0, h1, h2⟩
      have h0l : ¬ addresses.all.length == 0 := by
        simpa using fun hl => h0 (List.length_eq_zero.mp hl)
      have h1b : ¬ addresses.selected == "" := by simpa using h1
      have h2b : ¬ balance < getTotalCartValue items := not_lt.mpr h2
      simp [h0l, h1b, h2b]
  · intro hv hpost
    subst hpost
    simp [performCheckout, hv]
  · intro hv
    simp [performCheckout, hv]
  · intro hpost
    by_cases hv : validateRequest items addresses balance
    · cases post with
      | resp status =>
        have hs : status ≠ 200 := fun h => hpost (by rw [h])
        simp [performCheckout, hv, hs]
      | err => simp [performCheckout, hv]
    · simp only [Bool.not_eq_true] at hv
      simp [performCheckout, hv]

/-- Closed instance of C10: with one selected address, balance 500 and a
300-value cart, a 200 response returns true and leaves balance 200. -/
theorem performCheckout_balance_policy_witness :
    performCheckout
      [{ name := "Ball", qty := 3, category := "Sports", cost := 100, rating := 5,
         image := "x", productId := "A" }]
      { all := [{ _id := "addr1", address := "1 Main St" }], selected := "addr1" }
      500 (PostResult.resp 200) = (true, 200, true) := by
  have h := performCheckout_balance_policy
    [{ name := "Ball", qty := 3, category := "Sports", cost := 100, rating := 5,
       image := "x", productId := "A" }]
    { all := [{ _id := "addr1", address := "1 Main St" }], selected := "addr1" }
    500 (PostResult.resp 200)
  have hv : validateRequest
      [{ name := "Ball", qty := 3, category := "Sports", cost := 100, rating := 5,
         image := "x", productId := "A" }]
      { all := [{ _id := "addr1", address := "1 Main St" }], selected := "addr1" } 500 = true := by
    decide
  rw [h.2.2.1 hv rfl]
  decide
